import Mathlib

/-!
Shallow embedding of `src/util/WeChatPush.py` (class `WeChatPush`).

Modelling conventions:
* Time (`time.time()`) is a natural number passed explicitly as `now`.
* The pickle cache file is the inductive `CacheFile`, covering the outcomes
  of `open` + `pickle.load` that the code can encounter.
* Network responses are explicit arguments; whether the GET to the token
  endpoint and the POST to the message endpoint were actually issued is
  recorded in the outcome structures.
* Python exceptions are values of `PyError`; a function that can raise
  returns `Except PyError _`.
* Python `str.replace(old, new)` for the nonempty literals used by the code
  is `py_replace` (character-list scan with fuel equal to the list length,
  which suffices because each step consumes at least one character).
* Python `str.strip()` is `py_strip`, over the full set of characters
  `str.isspace()` holds of (CPython's whitespace table, Unicode included).
* Python `int(s)` in base 10 is `py_int`: Unicode whitespace stripped at the
  edges, an optional sign, and one or more Unicode decimal digits
  (category Nd, Unicode 15.0) with single underscores allowed between digits.
-/

namespace WeChatPush

/-- The characters Python's `str.isspace()` holds of — exactly the set
`str.strip()` and `int()` treat as whitespace (CPython's table): the ASCII
controls TAB..CR and FS..US, space, NEL (U+0085), NBSP (U+00A0), Ogham space
mark (U+1680), the U+2000..U+200A spaces, line and paragraph separators
(U+2028, U+2029), narrow no-break space (U+202F), medium mathematical space
(U+205F), and ideographic space (U+3000). -/
def isPyWhitespace (c : Char) : Bool :=
  (0x09 ≤ c.toNat && c.toNat ≤ 0x0d) ||
  (0x1c ≤ c.toNat && c.toNat ≤ 0x1f) ||
  c.toNat = 0x20 || c.toNat = 0x85 || c.toNat = 0xa0 ||
  c.toNat = 0x1680 ||
  (0x2000 ≤ c.toNat && c.toNat ≤ 0x200a) ||
  c.toNat = 0x2028 || c.toNat = 0x2029 || c.toNat = 0x202f ||
  c.toNat = 0x205f || c.toNat = 0x3000

/-- Python `s.strip()`: drop leading and trailing whitespace. -/
def py_strip (s : String) : String :=
  String.mk (((s.data.dropWhile isPyWhitespace).reverse.dropWhile isPyWhitespace).reverse)

/-- Scanner for `str.replace`: replaces each non-overlapping occurrence of
`pat` (nonempty) by `rep`, left to right.  `fuel` bounds the number of steps;
`fuel = s.length` is enough since every step consumes at least one character. -/
def replGo (pat rep : List Char) : Nat → List Char → List Char
  | _, [] => []
  | 0, s => s
  | fuel + 1, c :: rest =>
    if pat ≠ [] ∧ pat.isPrefixOf (c :: rest) then
      rep ++ replGo pat rep fuel ((c :: rest).drop pat.length)
    else
      c :: replGo pat rep fuel rest

/-- Python `s.replace(pat, rep)` for a nonempty `pat`. -/
def py_replace (s pat rep : String) : String :=
  String.mk (replGo pat.data rep.data s.data.length s.data)

/-- The digest-cleaning chain in `send_message`:
`content.replace("<div>","").replace("</div>","").replace("<ul>","")
 .replace("</ul>","").replace("<li>","").replace("</li>","")
 .replace("<span>","\n").replace("</span>","")`. -/
def clean_digest (content : String) : String :=
  py_replace
    (py_replace
      (py_replace
        (py_replace
          (py_replace
            (py_replace
              (py_replace
                (py_replace content "<div>" "")
                "</div>" "")
              "<ul>" "")
            "</ul>" "")
          "<li>" "")
        "</li>" "")
      "<span>" "\n")
    "</span>" ""

/-- First code points of the runs of ten Unicode decimal digits (general
category Nd, Unicode 15.0 — 68 runs, 680 characters); every Nd character is
`base + v` for one of these bases and its decimal value `v < 10`. -/
def ndBases : List Nat :=
  [0x30, 0x660, 0x6f0, 0x7c0, 0x966, 0x9e6, 0xa66, 0xae6, 0xb66, 0xbe6,
   0xc66, 0xce6, 0xd66, 0xde6, 0xe50, 0xed0, 0xf20, 0x1040, 0x1090, 0x17e0,
   0x1810, 0x1946, 0x19d0, 0x1a80, 0x1a90, 0x1b50, 0x1bb0, 0x1c40, 0x1c50,
   0xa620, 0xa8d0, 0xa900, 0xa9d0, 0xa9f0, 0xaa50, 0xabf0, 0xff10,
   0x104a0, 0x10d30, 0x11066, 0x110f0, 0x11136, 0x111d0, 0x112f0, 0x11450,
   0x114d0, 0x11650, 0x116c0, 0x11730, 0x118e0, 0x11950, 0x11c50, 0x11d50,
   0x11da0, 0x11f50, 0x16a60, 0x16ac0, 0x16b50, 0x1d7ce, 0x1d7d8, 0x1d7e2,
   0x1d7ec, 0x1d7f6, 0x1e140, 0x1e2f0, 0x1e4f0, 0x1e950, 0x1fbf0]

/-- Decimal value of a Unicode decimal digit (category Nd), or `none`. -/
def pyDigitVal (c : Char) : Option Nat :=
  (ndBases.find? (fun b => b ≤ c.toNat && c.toNat < b + 10)).map
    (fun b => c.toNat - b)

/-- Helper for `py_int`: digits after the first one, where a single
underscore may stand between two digits (never doubled or trailing). -/
def pyDigitsRest : Nat → List Char → Option Nat
  | acc, [] => some acc
  | _, ['_'] => none
  | acc, '_' :: c :: rest =>
    match pyDigitVal c with
    | some d => pyDigitsRest (10 * acc + d) rest
    | none => none
  | acc, c :: rest =>
    match pyDigitVal c with
    | some d => pyDigitsRest (10 * acc + d) rest
    | none => none

/-- Value of the digit part of an `int()` literal: one or more Unicode
decimal digits with single underscores allowed between digits (a leading
underscore is rejected here, a trailing one in `pyDigitsRest`). -/
def pyIntDigits : List Char → Option Nat
  | [] => none
  | c :: rest =>
    match pyDigitVal c with
    | some d => pyDigitsRest d rest
    | none => none

/-- Python `int(s)` in base 10: Unicode whitespace stripped at both ends,
an optional sign, then one or more Unicode decimal digits with single
underscores allowed between digits (`none` models a raised `ValueError`). -/
def py_int (s : String) : Option Int :=
  let cs := ((s.data.dropWhile isPyWhitespace).reverse.dropWhile isPyWhitespace).reverse
  match cs with
  | '-' :: rest => (pyIntDigits rest).map (fun n => -(n : Int))
  | '+' :: rest => (pyIntDigits rest).map (fun n => (n : Int))
  | rest => (pyIntDigits rest).map (fun n => (n : Int))

/-- Helper for `py_split_hash`: accumulates the current field (reversed). -/
def splitHashAux : List Char → List Char → List String
  | acc, [] => [String.mk acc.reverse]
  | acc, c :: rest =>
    if c = '#' then String.mk acc.reverse :: splitHashAux [] rest
    else splitHashAux (c :: acc) rest

/-- Python `s.split('#')`: split at every `'#'`, keeping empty fields
(so `"".split('#') = [""]` and the result is never empty). -/
def py_split_hash (s : String) : List String := splitHashAux [] s.data

/-- Python truthiness of an optional string (`None` and `""` are falsy). -/
def pyTruthy : Option String → Bool
  | none => false
  | some s => s != ""

/-- Python exceptions the embedded code can raise. -/
inductive PyError where
  | eofError
  | unpicklingError
  | attributeError
  | typeError
  | valueError
  | indexError
  | exceptionMsg (msg : String)
  deriving DecidableEq

/-- What `open(self.token_file, 'rb')` + `pickle.load(f)` can yield:
`missing` (FileNotFoundError), `empty` (EOFError), `corrupt` (bytes that fail
to unpickle, UnpicklingError), `nonDict` (a pickled value without a `.get`
method, AttributeError), or a pickled dict with optional `access_token`
(string) and `expire_time` (number) entries. -/
inductive CacheFile where
  | missing
  | empty
  | corrupt
  | nonDict
  | dict (access_token : Option String) (expire_time : Option Nat)
  deriving DecidableEq

/-- `_load_access_token`: reads the cache file; only `FileNotFoundError` and
`EOFError` are caught (returning `None`); the token is returned only when it
is truthy and `time.time() < expire_time`.  A truthy token together with a
missing `expire_time` makes `time.time() < None` raise `TypeError`. -/
def load_access_token (file : CacheFile) (now : Nat) : Except PyError (Option String) :=
  match file with
  | .missing => .ok none
  | .empty => .ok none
  | .corrupt => .error .unpicklingError
  | .nonDict => .error .attributeError
  | .dict tok exp =>
    match tok with
    | some t =>
      if t ≠ "" then
        match exp with
        | some e => if now < e then .ok (some t) else .ok none
        | none => .error .typeError
      else .ok none
    | none => .ok none

/-- In-memory state of a `WeChatPush` instance. -/
structure ClientState where
  corpid : String
  corpsecret : String
  agentid : String
  token_file : String
  access_token : Option String
  deriving DecidableEq

/-- `_save_access_token`: computes `expire_time = now + expires_in`, writes
`{access_token, expire_time}` to the file (overwriting it), and updates the
in-memory token.  Returns the new state and the new file contents. -/
def save_access_token (st : ClientState) (now : Nat) (tok : String) (expires_in : Nat) :
    ClientState × CacheFile :=
  ({ st with access_token := some tok }, .dict (some tok) (some (now + expires_in)))

/-- `WeChatPush.__init__`: splits the credential string on `'#'`, assigns the
first three fields as corpid / corpsecret / agentid (IndexError with fewer
than three fields), then loads the cached token (load errors propagate). -/
def init (token_str token_file : String) (file : CacheFile) (now : Nat) :
    Except PyError ClientState :=
  let l := py_split_hash token_str
  if h : 3 ≤ l.length then
    match load_access_token file now with
    | .ok tok => .ok { corpid := l[0], corpsecret := l[1], agentid := l[2],
                       token_file := token_file, access_token := tok }
    | .error e => .error e
  else .error .indexError

/-- JSON body of the token endpoint's reply (`{errcode, access_token,
expires_in, errmsg}`). -/
structure AuthJson where
  errcode : Int
  access_token : String
  expires_in : Nat
  errmsg : String
  deriving DecidableEq

/-- HTTP reply of `requests.get` on the token endpoint. -/
structure AuthResponse where
  status_code : Nat
  body : AuthJson
  deriving DecidableEq

/-- Outcome of `_get_access_token`: the returned token or raised exception,
whether the GET to the token endpoint was issued, and the state and file
after the call. -/
structure TokenOutcome where
  result : Except PyError String
  getIssued : Bool
  state : ClientState
  file : CacheFile

/-- The network branch of `_get_access_token`: GET the token endpoint; on
status 200 with `errcode == 0` save and return the new token, on `errcode ≠ 0`
raise with the endpoint's `errmsg`, on any other status raise with the status
code. -/
def fetch_access_token (st : ClientState) (file : CacheFile) (now : Nat)
    (resp : AuthResponse) : TokenOutcome :=
  if resp.status_code = 200 then
    if resp.body.errcode = 0 then
      let sf := save_access_token st now resp.body.access_token resp.body.expires_in
      { result := .ok resp.body.access_token, getIssued := true,
        state := sf.1, file := sf.2 }
    else
      { result := .error (.exceptionMsg ("获取 access_token 失败: " ++ resp.body.errmsg)),
        getIssued := true, state := st, file := file }
  else
    { result := .error (.exceptionMsg ("请求失败, 错误代码: " ++ toString resp.status_code)),
      getIssued := true, state := st, file := file }

/-- `_get_access_token`: returns the in-memory token when it is truthy
(no expiry check, no network call); otherwise takes the network branch. -/
def get_access_token (st : ClientState) (file : CacheFile) (now : Nat)
    (resp : AuthResponse) : TokenOutcome :=
  match st.access_token with
  | some tok =>
    if tok ≠ "" then
      { result := .ok tok, getIssued := false, state := st, file := file }
    else fetch_access_token st file now resp
  | none => fetch_access_token st file now resp

/-- One article of the `mpnews` payload. -/
structure Article where
  title : String
  thumb_media_id : String
  author : String
  content_source_url : String
  content : String
  digest : String
  deriving DecidableEq

/-- The JSON body `send_message` posts. -/
structure Payload where
  touser : String
  msgtype : String
  agentid : Int
  articles : List Article
  deriving DecidableEq

/-- The `data` dict built by `send_message`; `int(self.agentid)` raises
`ValueError` when the agentid string is not an integer literal. -/
def buildPayload (st : ClientState) (title content : String) : Except PyError Payload :=
  match py_int st.agentid with
  | none => .error .valueError
  | some a =>
    .ok { touser := "@all", msgtype := "mpnews", agentid := a,
          articles := [{
            title := py_replace title "\n" "",
            thumb_media_id := "2olmh7kAnR5KVR0BuHzAiOuWEFkBF8ITqi6AQxTUR3bQiFpnP2UukUn9xNtk-LvIm",
            author := "锐大神",
            content_source_url := "https://www.fglt.net/index.php",
            content := content,
            digest := py_strip (clean_digest content) }] }

/-- Parsed JSON of the message endpoint's reply, returned verbatim on 200. -/
structure SendJson where
  errcode : Int
  errmsg : String
  deriving DecidableEq

/-- HTTP reply of `requests.post` on the message endpoint. -/
structure SendResponse where
  status_code : Nat
  json : SendJson
  deriving DecidableEq

/-- Outcome of `send_message`: return value or raised exception, whether the
GET (token) and POST (message) requests were issued, the payload actually
posted (if any), the state and file after the call, and the printed lines. -/
structure SendOutcome where
  result : Except PyError (Option SendJson)
  getIssued : Bool
  postIssued : Bool
  payload : Option Payload
  state : ClientState
  file : CacheFile
  log : List String

/-- `send_message`: obtains a token via `_get_access_token` (exceptions
propagate, aborting before the POST), builds the payload (`ValueError` from
`int(self.agentid)` also aborts before the POST), POSTs it, and on status 200
prints success and returns the parsed JSON, otherwise prints the status code
and returns `None`. -/
def send_message (st : ClientState) (file : CacheFile) (now : Nat)
    (authResp : AuthResponse) (sendResp : SendResponse)
    (title content : String) : SendOutcome :=
  let t := get_access_token st file now authResp
  match t.result with
  | .error e =>
    { result := .error e, getIssued := t.getIssued, postIssued := false,
      payload := none, state := t.state, file := t.file, log := [] }
  | .ok _ =>
    match buildPayload t.state title content with
    | .error e =>
      { result := .error e, getIssued := t.getIssued, postIssued := false,
        payload := none, state := t.state, file := t.file, log := [] }
    | .ok p =>
      if sendResp.status_code = 200 then
        { result := .ok (some sendResp.json), getIssued := t.getIssued,
          postIssued := true, payload := some p, state := t.state,
          file := t.file, log := ["消息发送成功"] }
      else
        { result := .ok none, getIssued := t.getIssued,
          postIssued := true, payload := some p, state := t.state,
          file := t.file,
          log := ["消息发送失败, 错误代码: " ++ toString sendResp.status_code] }


/-! ### Helper lemmas and concrete fixtures -/

/-- A client state as produced by loading a valid cached token at startup. -/
def demoState : ClientState where
  corpid := "ww1"
  corpsecret := "sec"
  agentid := "1000002"
  token_file := "access_token.data"
  access_token := some "TOKEN"

/-- A client state with no cached token. -/
def demoFreshState : ClientState where
  corpid := "ww1"
  corpsecret := "sec"
  agentid := "1000002"
  token_file := "access_token.data"
  access_token := none

/-- A client state whose agentid field is not an integer literal. -/
def demoBadState : ClientState where
  corpid := "ww1"
  corpsecret := "sec"
  agentid := "notanint"
  token_file := "access_token.data"
  access_token := some "TOKEN"

/-- A successful reply of the token endpoint. -/
def demoAuthOk : AuthResponse where
  status_code := 200
  body := { errcode := 0, access_token := "NEWTOK", expires_in := 7200, errmsg := "ok" }

/-- A status-200 reply of the token endpoint carrying an application error. -/
def demoAuthFail : AuthResponse where
  status_code := 200
  body := { errcode := 40001, access_token := "", expires_in := 0, errmsg := "invalid credential" }

/-- A successful reply of the message endpoint. -/
def demoSendOk : SendResponse where
  status_code := 200
  json := { errcode := 0, errmsg := "ok" }

/-- A failing (status 500) reply of the message endpoint. -/
def demoSendFail : SendResponse where
  status_code := 500
  json := { errcode := 0, errmsg := "" }

theorem get_access_token_state_agentid (st : ClientState) (file : CacheFile) (now : Nat)
    (resp : AuthResponse) : (get_access_token st file now resp).state.agentid = st.agentid := by
  unfold get_access_token fetch_access_token save_access_token
  cases st.access_token <;> dsimp <;> (repeat' split) <;> rfl

theorem get_access_token_of_falsy (st : ClientState) (file : CacheFile) (now : Nat)
    (resp : AuthResponse) (h : pyTruthy st.access_token = false) :
    get_access_token st file now resp = fetch_access_token st file now resp := by
  unfold get_access_token
  cases hs : st.access_token with
  | none => rfl
  | some tok =>
    rw [hs] at h
    have ht : tok = "" := by simpa [pyTruthy] using h
    subst ht
    simp

theorem fetch_access_token_fails (st : ClientState) (file : CacheFile) (now : Nat)
    (resp : AuthResponse) (h : resp.status_code ≠ 200 ∨ resp.body.errcode ≠ 0) :
    ∃ e, (fetch_access_token st file now resp).result = Except.error e := by
  unfold fetch_access_token
  rcases h with h | h
  · simp [h]
  · by_cases hs : resp.status_code = 200 <;> simp [hs, h]

/-- The single article `send_message` puts into the payload. -/
def builtArticle (title content : String) : Article where
  title := py_replace title "\n" ""
  thumb_media_id := "2olmh7kAnR5KVR0BuHzAiOuWEFkBF8ITqi6AQxTUR3bQiFpnP2UukUn9xNtk-LvIm"
  author := "锐大神"
  content_source_url := "https://www.fglt.net/index.php"
  content := content
  digest := py_strip (clean_digest content)

theorem buildPayload_eq (st : ClientState) (title content : String) (a : Int)
    (h : py_int st.agentid = some a) :
    buildPayload st title content =
      Except.ok { touser := "@all", msgtype := "mpnews", agentid := a,
                  articles := [builtArticle title content] } := by
  unfold buildPayload builtArticle
  rw [h]

theorem send_message_reached (st : ClientState) (file : CacheFile) (now : Nat)
    (authResp : AuthResponse) (sendResp : SendResponse) (title content : String)
    (tok : String) (a : Int)
    (h1 : (get_access_token st file now authResp).result = Except.ok tok)
    (h2 : py_int st.agentid = some a) :
    send_message st file now authResp sendResp title content =
      { result := if sendResp.status_code = 200 then .ok (some sendResp.json) else .ok none,
        getIssued := (get_access_token st file now authResp).getIssued,
        postIssued := true,
        payload := some { touser := "@all", msgtype := "mpnews", agentid := a,
                          articles := [builtArticle title content] },
        state := (get_access_token st file now authResp).state,
        file := (get_access_token st file now authResp).file,
        log := if sendResp.status_code = 200 then ["消息发送成功"]
               else ["消息发送失败, 错误代码: " ++ toString sendResp.status_code] } := by
  have hag : (get_access_token st file now authResp).state.agentid = st.agentid :=
    get_access_token_state_agentid st file now authResp
  have hb : buildPayload (get_access_token st file now authResp).state title content =
      Except.ok { touser := "@all", msgtype := "mpnews", agentid := a,
                  articles := [builtArticle title content] } :=
    buildPayload_eq _ title content a (hag ▸ h2)
  simp only [send_message]
  rw [h1, hb]
  by_cases hs : sendResp.status_code = 200 <;> simp [hs]

theorem send_message_token_error (st : ClientState) (file : CacheFile) (now : Nat)
    (authResp : AuthResponse) (sendResp : SendResponse) (title content : String)
    (e : PyError)
    (h1 : (get_access_token st file now authResp).result = Except.error e) :
    send_message st file now authResp sendResp title content =
      { result := .error e,
        getIssued := (get_access_token st file now authResp).getIssued,
        postIssued := false, payload := none,
        state := (get_access_token st file now authResp).state,
        file := (get_access_token st file now authResp).file, log := [] } := by
  simp only [send_message]
  rw [h1]

theorem replGo_newline_id (rep : List Char) :
    ∀ (fuel : Nat) (s : List Char), s.length ≤ fuel → (∀ c ∈ s, c ≠ '\n') →
      replGo ['\n'] rep fuel s = s := by
  intro fuel
  induction fuel with
  | zero =>
    intro s hs _
    cases s with
    | nil => rfl
    | cons c rest => simp at hs
  | succ n ih =>
    intro s hs hc
    cases s with
    | nil => rfl
    | cons c rest =>
      have hcne : c ≠ '\n' := hc c (by simp)
      unfold replGo
      have hnp : ¬(['\n'] ≠ [] ∧ ['\n'].isPrefixOf (c :: rest)) := by
        rintro ⟨-, hp⟩
        simp [List.isPrefixOf] at hp
        exact hcne hp.symm
      rw [if_neg hnp]
      have hlen : rest.length ≤ n := by simpa using Nat.le_of_succ_le_succ (by simpa using hs)
      rw [ih rest hlen (fun x hx => hc x (by simp [hx]))]

theorem py_replace_newline_id (s : String) (h : ∀ c ∈ s.data, c ≠ '\n') :
    py_replace s "\n" "" = s := by
  unfold py_replace
  have h1 : ("\n" : String).data = ['\n'] := rfl
  have h2 : ("" : String).data = [] := rfl
  rw [h1, h2, replGo_newline_id [] s.data.length s.data (le_refl _) h]

/-! ### Claims -/

/-- C1 (counterexample): for content `"<span>A</span><span>B</span>"` the digest
placed in the outgoing article is `"A\nB"`, not `"\nA\nB"` as the claim states:
the final `strip()` removes the leading newline produced by the `<span>`
replacement. -/
theorem C1_counterexample :
    ((send_message demoState CacheFile.missing 0 demoAuthOk demoSendOk
        "t" "<span>A</span><span>B</span>").payload.map
      (fun p => p.articles.map Article.digest)) = some ["A\nB"] ∧
    ("A\nB" : String) ≠ "\nA\nB" :=
  ⟨rfl, by decide⟩

/-- C1 (amended): for the fixed inputs, the digest built by `send_message` is
`"X"` for `"<div>X</div>"` and — because the trailing `strip()` removes the
leading newline introduced by the `<span>` replacement — `"A\nB"` for
`"<span>A</span><span>B</span>"`. -/
theorem C1_digest_fixed_inputs :
    ((send_message demoState CacheFile.missing 0 demoAuthOk demoSendOk
        "t" "<div>X</div>").payload.map
      (fun p => p.articles.map Article.digest)) = some ["X"] ∧
    ((send_message demoState CacheFile.missing 0 demoAuthOk demoSendOk
        "t" "<span>A</span><span>B</span>").payload.map
      (fun p => p.articles.map Article.digest)) = some ["A\nB"] :=
  ⟨rfl, rfl⟩

/-- C2 (counterexample): a token loaded as valid at time 0 (stored expiry 10)
is still returned by `_get_access_token` at time 20, after its expiry, and no
network call is issued — the expiry is not re-checked at call time. -/
theorem C2_counterexample :
    init "ww1#sec#1000002" "access_token.data"
        (CacheFile.dict (some "TOKEN") (some 10)) 0 = Except.ok demoState ∧
    ¬(20 < 10) ∧
    (get_access_token demoState (CacheFile.dict (some "TOKEN") (some 10)) 20
        demoAuthFail).getIssued = false ∧
    (get_access_token demoState (CacheFile.dict (some "TOKEN") (some 10)) 20
        demoAuthFail).result = Except.ok "TOKEN" :=
  ⟨rfl, by decide, rfl, rfl⟩

/-- C2 (amended): `_get_access_token` returns the in-memory token whenever one
is present (and nonempty), without re-checking its expiry and without any
network call; the expiry check happens only when the token is loaded from the
cache file; when no token is in memory the authentication endpoint is called;
a cache file holding a nonempty token with expiry in the future at load time
is loaded for such reuse. -/
theorem C2_token_reuse (st : ClientState) (file : CacheFile) (now : Nat)
    (resp : AuthResponse) (t : String) (e : Nat) :
    (∀ tok, st.access_token = some tok → tok ≠ "" →
      get_access_token st file now resp =
        { result := Except.ok tok, getIssued := false, state := st, file := file }) ∧
    (pyTruthy st.access_token = false →
      (get_access_token st file now resp).getIssued = true) ∧
    (t ≠ "" → now < e →
      load_access_token (CacheFile.dict (some t) (some e)) now = Except.ok (some t)) := by
  refine ⟨?_, ?_, ?_⟩
  · intro tok htok hne
    unfold get_access_token
    rw [htok]
    simp [hne]
  · intro h
    rw [get_access_token_of_falsy st file now resp h]
    unfold fetch_access_token
    by_cases hs : resp.status_code = 200 <;> by_cases hc : resp.body.errcode = 0 <;>
      simp [hs, hc]
  · intro hne hlt
    simp [load_access_token, hne, hlt]

/-- C2 (witness): concrete instance of `C2_token_reuse`. -/
theorem C2_witness :
    get_access_token demoState CacheFile.missing 0 demoAuthFail =
      { result := Except.ok "TOKEN", getIssued := false, state := demoState,
        file := CacheFile.missing } ∧
    load_access_token (CacheFile.dict (some "TOKEN") (some 10)) 0 =
      Except.ok (some "TOKEN") :=
  ⟨(C2_token_reuse demoState CacheFile.missing 0 demoAuthFail "TOKEN" 10).1
      "TOKEN" rfl (by decide),
   (C2_token_reuse demoState CacheFile.missing 0 demoAuthFail "TOKEN" 10).2.2
      (by decide) (by decide)⟩

/-- C3 (counterexample): a cache file whose bytes fail to unpickle makes
`_load_access_token` raise `pickle.UnpicklingError` instead of silently
returning no token — only `FileNotFoundError` and `EOFError` are caught. -/
theorem C3_counterexample :
    load_access_token CacheFile.corrupt 0 ≠ Except.ok none ∧
    load_access_token CacheFile.corrupt 0 = Except.error PyError.unpicklingError :=
  ⟨by simp [load_access_token], rfl⟩

/-- C3 (amended): a missing or empty cache file makes the load silently return
no token; but a file that fails to deserialize raises `UnpicklingError`, a
pickled non-dict raises `AttributeError`, and a dict holding a nonempty token
without an expiry raises `TypeError` — none of these are treated as "need new
token". -/
theorem C3_load_failure_semantics (now : Nat) (t : String) (h : t ≠ "") :
    load_access_token CacheFile.missing now = Except.ok none ∧
    load_access_token CacheFile.empty now = Except.ok none ∧
    load_access_token CacheFile.corrupt now = Except.error PyError.unpicklingError ∧
    load_access_token CacheFile.nonDict now = Except.error PyError.attributeError ∧
    load_access_token (CacheFile.dict (some t) none) now = Except.error PyError.typeError := by
  refine ⟨rfl, rfl, rfl, rfl, ?_⟩
  simp [load_access_token, h]

/-- C3 (witness): concrete instance of `C3_load_failure_semantics`. -/
theorem C3_witness :
    load_access_token CacheFile.missing 7 = Except.ok none ∧
    load_access_token CacheFile.empty 7 = Except.ok none ∧
    load_access_token CacheFile.corrupt 7 = Except.error PyError.unpicklingError ∧
    load_access_token CacheFile.nonDict 7 = Except.error PyError.attributeError ∧
    load_access_token (CacheFile.dict (some "TOKEN") none) 7 =
      Except.error PyError.typeError :=
  C3_load_failure_semantics 7 "TOKEN" (by decide)

/-- C4: with no usable in-memory token, an authentication reply with non-200
status or nonzero `errcode` makes `_get_access_token` raise, and the
`send_message` call fails with that exception without issuing the POST. -/
theorem C4_auth_failure_aborts (st : ClientState) (file : CacheFile) (now : Nat)
    (authResp : AuthResponse) (sendResp : SendResponse) (title content : String)
    (hcache : pyTruthy st.access_token = false)
    (hfail : authResp.status_code ≠ 200 ∨ authResp.body.errcode ≠ 0) :
    (∃ e, (get_access_token st file now authResp).result = Except.error e) ∧
    (∃ e, (send_message st file now authResp sendResp title content).result =
      Except.error e) ∧
    (send_message st file now authResp sendResp title content).postIssued = false := by
  have hg := get_access_token_of_falsy st file now authResp hcache
  obtain ⟨e, he⟩ := fetch_access_token_fails st file now authResp hfail
  have hres : (get_access_token st file now authResp).result = Except.error e := by
    rw [hg]; exact he
  refine ⟨⟨e, hres⟩, ⟨e, ?_⟩, ?_⟩
  · rw [send_message_token_error st file now authResp sendResp title content e hres]
  · rw [send_message_token_error st file now authResp sendResp title content e hres]

/-- C4 (witness): concrete instance of `C4_auth_failure_aborts`. -/
theorem C4_witness :
    (∃ e, (get_access_token demoFreshState CacheFile.missing 0 demoAuthFail).result =
      Except.error e) ∧
    (∃ e, (send_message demoFreshState CacheFile.missing 0 demoAuthFail demoSendOk
      "t" "c").result = Except.error e) ∧
    (send_message demoFreshState CacheFile.missing 0 demoAuthFail demoSendOk
      "t" "c").postIssued = false :=
  C4_auth_failure_aborts demoFreshState CacheFile.missing 0 demoAuthFail demoSendOk
    "t" "c" rfl (Or.inr (by decide))

/-- C5: once the POST is reached (token obtained, agentid parsed), a non-200
reply of the message endpoint makes `send_message` return `None` and print the
status code (no exception); a 200 reply makes it return the parsed JSON. -/
theorem C5_send_status (st : ClientState) (file : CacheFile) (now : Nat)
    (authResp : AuthResponse) (sendResp : SendResponse) (title content : String)
    (tok : String) (a : Int)
    (h1 : (get_access_token st file now authResp).result = Except.ok tok)
    (h2 : py_int st.agentid = some a) :
    (sendResp.status_code ≠ 200 →
      (send_message st file now authResp sendResp title content).result =
        Except.ok none ∧
      (send_message st file now authResp sendResp title content).log =
        ["消息发送失败, 错误代码: " ++ toString sendResp.status_code]) ∧
    (sendResp.status_code = 200 →
      (send_message st file now authResp sendResp title content).result =
        Except.ok (some sendResp.json)) := by
  rw [send_message_reached st file now authResp sendResp title content tok a h1 h2]
  constructor
  · intro h; simp [h]
  · intro h; simp [h]

/-- C5 (witness): concrete instance of `C5_send_status`. -/
theorem C5_witness :
    (send_message demoState CacheFile.missing 0 demoAuthOk demoSendFail
      "t" "c").result = Except.ok none ∧
    (send_message demoState CacheFile.missing 0 demoAuthOk demoSendFail
      "t" "c").log = ["消息发送失败, 错误代码: " ++ toString demoSendFail.status_code] ∧
    (send_message demoState CacheFile.missing 0 demoAuthOk demoSendOk
      "t" "c").result = Except.ok (some demoSendOk.json) :=
  ⟨((C5_send_status demoState CacheFile.missing 0 demoAuthOk demoSendFail
      "t" "c" "TOKEN" 1000002 rfl rfl).1 (by decide)).1,
   ((C5_send_status demoState CacheFile.missing 0 demoAuthOk demoSendFail
      "t" "c" "TOKEN" 1000002 rfl rfl).1 (by decide)).2,
   (C5_send_status demoState CacheFile.missing 0 demoAuthOk demoSendOk
      "t" "c" "TOKEN" 1000002 rfl rfl).2 rfl⟩

/-- C6 (counterexample): a persisted dict holding the token `"TOKEN"` but no
expiry makes `_load_access_token` raise `TypeError` (from `time.time() < None`)
instead of returning nothing. -/
theorem C6_counterexample :
    load_access_token (CacheFile.dict (some "TOKEN") none) 5 =
      Except.error PyError.typeError ∧
    load_access_token (CacheFile.dict (some "TOKEN") none) 5 ≠ Except.ok none ∧
    load_access_token (CacheFile.dict (some "TOKEN") none) 5 ≠
      Except.ok (some "TOKEN") :=
  ⟨rfl, by simp [load_access_token], by simp [load_access_token]⟩

/-- C6 (amended): for a persisted dict that does carry an expiry, the load
returns the stored token exactly when it is present (and nonempty) and the
current time is strictly below the expiry, and nothing otherwise; a missing
file loads to nothing; but a dict holding a nonempty token without an expiry
raises `TypeError` instead of returning nothing. -/
theorem C6_load_exactness (tok : Option String) (e now : Nat) :
    load_access_token (CacheFile.dict tok (some e)) now =
      Except.ok (if pyTruthy tok = true ∧ now < e then tok else none) ∧
    (∀ t : String, t ≠ "" →
      load_access_token (CacheFile.dict (some t) none) now =
        Except.error PyError.typeError) ∧
    load_access_token CacheFile.missing now = Except.ok none := by
  refine ⟨?_, ?_, rfl⟩
  · cases tok with
    | none => simp [load_access_token, pyTruthy]
    | some t =>
      by_cases ht : t = ""
      · subst ht; simp [load_access_token, pyTruthy]
      · by_cases he : now < e <;> simp [load_access_token, pyTruthy, ht, he]
  · intro t ht
    simp [load_access_token, ht]

/-- C6 (witness): concrete instances of `C6_load_exactness`. -/
theorem C6_witness :
    load_access_token (CacheFile.dict (some "TOKEN") (some 10)) 3 =
      Except.ok (some "TOKEN") ∧
    load_access_token (CacheFile.dict (some "TOKEN") (some 10)) 10 =
      Except.ok none ∧
    load_access_token (CacheFile.dict (some "GONE") none) 3 =
      Except.error PyError.typeError := by
  refine ⟨?_, ?_, (C6_load_exactness (some "GONE") 10 3).2.1 "GONE" (by decide)⟩
  · have h := (C6_load_exactness (some "TOKEN") 10 3).1
    simpa [pyTruthy] using h
  · have h := (C6_load_exactness (some "TOKEN") 10 10).1
    simpa [pyTruthy] using h

/-- C7: `_save_access_token` persists exactly `{access_token := tok,
expire_time := now + ttl}` as the new file contents — independent of any
previous file contents, which are overwritten — and updates the in-memory
token while leaving the other state fields unchanged. -/
theorem C7_save (st : ClientState) (now : Nat) (tok : String) (ttl : Nat) :
    (save_access_token st now tok ttl).2 =
      CacheFile.dict (some tok) (some (now + ttl)) ∧
    (save_access_token st now tok ttl).1.access_token = some tok ∧
    (save_access_token st now tok ttl).1.corpid = st.corpid ∧
    (save_access_token st now tok ttl).1.corpsecret = st.corpsecret ∧
    (save_access_token st now tok ttl).1.agentid = st.agentid ∧
    (save_access_token st now tok ttl).1.token_file = st.token_file :=
  ⟨rfl, rfl, rfl, rfl, rfl, rfl⟩

/-- C8 (counterexample): for the title `"a\nb"` the article posted by
`send_message` carries the title `"ab"`, not the given title — newlines are
removed. -/
theorem C8_counterexample :
    ((send_message demoState CacheFile.missing 0 demoAuthOk demoSendOk
        "a\nb" "c").payload.map
      (fun p => p.articles.map Article.title)) = some ["ab"] ∧
    ("ab" : String) ≠ "a\nb" :=
  ⟨rfl, by decide⟩

/-- C8 (amended): whenever the POST is reached, the payload posted by
`send_message` has recipient `"@all"`, message type `"mpnews"`, the parsed
agent id, and exactly one article carrying the title with newline characters
removed, the derived digest, the original content, the fixed thumbnail media
id, the fixed author, and the fixed source link. -/
theorem C8_payload_shape (st : ClientState) (file : CacheFile) (now : Nat)
    (authResp : AuthResponse) (sendResp : SendResponse) (title content : String)
    (tok : String) (a : Int)
    (h1 : (get_access_token st file now authResp).result = Except.ok tok)
    (h2 : py_int st.agentid = some a) :
    (send_message st file now authResp sendResp title content).payload =
      some { touser := "@all", msgtype := "mpnews", agentid := a,
             articles := [builtArticle title content] } ∧
    (builtArticle title content).title = py_replace title "\n" "" ∧
    (builtArticle title content).digest = py_strip (clean_digest content) ∧
    (builtArticle title content).content = content ∧
    (builtArticle title content).thumb_media_id =
      "2olmh7kAnR5KVR0BuHzAiOuWEFkBF8ITqi6AQxTUR3bQiFpnP2UukUn9xNtk-LvIm" ∧
    (builtArticle title content).author = "锐大神" ∧
    (builtArticle title content).content_source_url = "https://www.fglt.net/index.php" := by
  refine ⟨?_, rfl, rfl, rfl, rfl, rfl, rfl⟩
  rw [send_message_reached st file now authResp sendResp title content tok a h1 h2]

/-- C8 (witness): concrete instance of `C8_payload_shape`. -/
theorem C8_witness :
    (send_message demoState CacheFile.missing 0 demoAuthOk demoSendOk
      "t" "c").payload =
      some { touser := "@all", msgtype := "mpnews", agentid := 1000002,
             articles := [builtArticle "t" "c"] } ∧
    (builtArticle "t" "c").title = py_replace "t" "\n" "" ∧
    (builtArticle "t" "c").digest = py_strip (clean_digest "c") ∧
    (builtArticle "t" "c").content = "c" ∧
    (builtArticle "t" "c").thumb_media_id =
      "2olmh7kAnR5KVR0BuHzAiOuWEFkBF8ITqi6AQxTUR3bQiFpnP2UukUn9xNtk-LvIm" ∧
    (builtArticle "t" "c").author = "锐大神" ∧
    (builtArticle "t" "c").content_source_url = "https://www.fglt.net/index.php" :=
  C8_payload_shape demoState CacheFile.missing 0 demoAuthOk demoSendOk
    "t" "c" "TOKEN" 1000002 rfl rfl

/-- C9: whenever the POST is reached, the title placed in the outgoing article
is the given title with every `'\n'` removed; a title containing no newline is
passed through unchanged. -/
theorem C9_title_newlines (st : ClientState) (file : CacheFile) (now : Nat)
    (authResp : AuthResponse) (sendResp : SendResponse) (title content : String)
    (tok : String) (a : Int)
    (h1 : (get_access_token st file now authResp).result = Except.ok tok)
    (h2 : py_int st.agentid = some a) :
    ((send_message st file now authResp sendResp title content).payload.map
      (fun p => p.articles.map Article.title)) = some [py_replace title "\n" ""] ∧
    ((∀ c ∈ title.data, c ≠ '\n') → py_replace title "\n" "" = title) := by
  constructor
  · rw [send_message_reached st file now authResp sendResp title content tok a h1 h2]
    simp [builtArticle]
  · exact py_replace_newline_id title

/-- C9 (witness): concrete instance of `C9_title_newlines`. -/
theorem C9_witness :
    ((send_message demoState CacheFile.missing 0 demoAuthOk demoSendOk
        "hello" "c").payload.map
      (fun p => p.articles.map Article.title)) = some [py_replace "hello" "\n" ""] ∧
    py_replace "hello" "\n" "" = "hello" :=
  ⟨(C9_title_newlines demoState CacheFile.missing 0 demoAuthOk demoSendOk
      "hello" "c" "TOKEN" 1000002 rfl rfl).1,
   (C9_title_newlines demoState CacheFile.missing 0 demoAuthOk demoSendOk
      "hello" "c" "TOKEN" 1000002 rfl rfl).2 (by decide)⟩

theorem send_message_payload_none_of_bad_agentid (st : ClientState) (file : CacheFile)
    (now : Nat) (authResp : AuthResponse) (sendResp : SendResponse)
    (title content : String) (h : py_int st.agentid = none) :
    (send_message st file now authResp sendResp title content).payload = none ∧
    (send_message st file now authResp sendResp title content).postIssued = false := by
  have hag := get_access_token_state_agentid st file now authResp
  simp only [send_message]
  cases hres : (get_access_token st file now authResp).result with
  | error e => simp
  | ok tok =>
    have hb : buildPayload (get_access_token st file now authResp).state title content =
        Except.error PyError.valueError := by
      unfold buildPayload
      rw [hag, h]
    rw [hb]
    simp

/-- C10: `__init__` fails with `IndexError` when the credential string splits
into fewer than three `'#'`-separated fields; when construction succeeds the
first, second and third fields become corpid, corpsecret and agentid; and when
the agentid field is not parseable as an integer, `send_message` never builds
its payload (and issues no POST). -/
theorem C10_constructor (token_str tf : String) (file : CacheFile) (now : Nat) :
    ((py_split_hash token_str).length < 3 →
      init token_str tf file now = Except.error PyError.indexError) ∧
    (∀ st, init token_str tf file now = Except.ok st →
      st.corpid = (py_split_hash token_str)[0]! ∧
      st.corpsecret = (py_split_hash token_str)[1]! ∧
      st.agentid = (py_split_hash token_str)[2]!) ∧
    (∀ (st : ClientState) (authResp : AuthResponse) (sendResp : SendResponse)
        (title content : String), py_int st.agentid = none →
      (send_message st file now authResp sendResp title content).payload = none ∧
      (send_message st file now authResp sendResp title content).postIssued = false) := by
  refine ⟨?_, ?_, ?_⟩
  · intro hlt
    unfold init
    rw [dif_neg (by omega)]
  · intro st hok
    unfold init at hok
    by_cases h3 : 3 ≤ (py_split_hash token_str).length
    · rw [dif_pos h3] at hok
      cases hload : load_access_token file now with
      | ok tok =>
        rw [hload] at hok
        cases hok
        refine ⟨?_, ?_, ?_⟩ <;>
          simp [getElem!_pos, h3, (by omega : 0 < (py_split_hash token_str).length),
            (by omega : 1 < (py_split_hash token_str).length),
            (by omega : 2 < (py_split_hash token_str).length)]
      | error e =>
        rw [hload] at hok
        cases hok
    · rw [dif_neg h3] at hok
      cases hok
  · intro st authResp sendResp title content h
    exact send_message_payload_none_of_bad_agentid st file now authResp sendResp
      title content h

/-- C10 (witness): concrete instances of `C10_constructor`. -/
theorem C10_witness :
    init "a#b" "f" CacheFile.missing 0 = Except.error PyError.indexError ∧
    ({ corpid := "a", corpsecret := "b", agentid := "9", token_file := "f",
       access_token := none : ClientState }.corpid = (py_split_hash "a#b#9")[0]! ∧
     { corpid := "a", corpsecret := "b", agentid := "9", token_file := "f",
       access_token := none : ClientState }.corpsecret = (py_split_hash "a#b#9")[1]! ∧
     { corpid := "a", corpsecret := "b", agentid := "9", token_file := "f",
       access_token := none : ClientState }.agentid = (py_split_hash "a#b#9")[2]!) ∧
    (send_message demoBadState CacheFile.missing 0 demoAuthOk demoSendOk
      "t" "c").payload = none ∧
    (send_message demoBadState CacheFile.missing 0 demoAuthOk demoSendOk
      "t" "c").postIssued = false :=
  ⟨(C10_constructor "a#b" "f" CacheFile.missing 0).1 (by decide),
   (C10_constructor "a#b#9" "f" CacheFile.missing 0).2.1
     { corpid := "a", corpsecret := "b", agentid := "9", token_file := "f",
       access_token := none } rfl,
   ((C10_constructor "x" "f" CacheFile.missing 0).2.2 demoBadState demoAuthOk
     demoSendOk "t" "c" rfl).1,
   ((C10_constructor "x" "f" CacheFile.missing 0).2.2 demoBadState demoAuthOk
     demoSendOk "t" "c" rfl).2⟩

end WeChatPush
